import Mathlib

/-!
The gorelic Agent (agent.go)

A shallow embedding of `agent.go`: the `Agent` record, its constructor
`NewAgent`, the two HTTP wrapping entry points, `Run` and `Debug`.

The Go code works on an `*Agent` and on objects reachable from it (the
newrelic plugin, its component, the HTTP timer, the process log, the
goroutines it starts).  Here the Agent is passed and returned explicitly and
everything else lives in an `Env`:

* objects allocated by a constructor are cells of a list; a pointer is the
  index of its cell, `none` is `nil`;
* `log.Println` appends its message to `Env.log`;
* `go f()` appends the started task to `Env.tasks`, and what the task finds
  at the moment it is started to `Env.startedWith`.

Go's `int` only ever travels through the code unchanged (no arithmetic is done
on it), so it is an `Int`.
-/

namespace Gorelic

/-! ## Constants (agent.go, lines 12-25) -/

def NEWRELIC_POLL_INTERVAL : Int := 60

def GC_POLL_INTERVAL_IN_SECONDS : Int := 10

def MEMORY_ALLOCATOR_POLL_INTERVAL_IN_SECONDS : Int := 60

def AGENT_GUID : String := "com.github.yvasiyarov.GoRelic"

def AGENT_VERSION : String := "0.0.4"

def AGENT_NAME : String := "Go daemon"

/-! ## Data model -/

/-- A value of the interface type `metrics.Timer`: `none` is the nil
interface, `some n` refers to the timer object made by the `n`-th call of
`metrics.NewTimer` (counting from zero). -/
abbrev Timer := Option Nat

/-- The struct `Agent` (agent.go, lines 27-41).  `plugin` is a pointer into
`Env.plugins`. -/
structure Agent where
  NewrelicName : String
  NewrelicLicense : String
  NewrelicPollInterval : Int
  Verbose : Bool
  CollectGcStat : Bool
  CollectMemoryStat : Bool
  CollectHttpStat : Bool
  GCPollInterval : Int
  MemoryAllocatorPollInterval : Int
  AgentGUID : String
  AgentVersion : String
  plugin : Option Nat
  HttpTimer : Timer
  deriving DecidableEq, Repr

/-- The metric families that the `add...MericsToComponent` helpers attach to a
component, with the argument each helper was given. -/
inductive MetricGroup where
  | runtime
  | gc (pollInterval : Int)
  | memory (pollInterval : Int)
  | http (timer : Timer)
  deriving DecidableEq, Repr

/-- A `newrelic_platform_go` plugin component: its identity and the metric
families attached so far, in the order of attachment. -/
structure PluginComponent where
  name : String
  guid : String
  metrics : List MetricGroup
  deriving DecidableEq, Repr

/-- A `newrelic_platform_go.NewrelicPlugin`: the constructor arguments, the
public `Verbose` field and the components added (pointers into
`Env.components`). -/
structure NewrelicPlugin where
  version : String
  licenseKey : String
  pollInterval : Int
  Verbose : Bool
  components : List Nat
  deriving DecidableEq, Repr

/-- Everything the Agent's methods can touch besides the Agent itself. -/
structure Env where
  plugins : List NewrelicPlugin
  components : List PluginComponent
  timers : Nat
  log : List String
  tasks : List Nat
  startedWith : List (Option NewrelicPlugin)
  deriving DecidableEq, Repr

/-- The state of a process in which nothing has been allocated, logged or
started yet. -/
def Env.empty : Env := ⟨[], [], 0, [], [], []⟩

/-- Apply `f` to the cell at address `i`; an address outside the heap leaves it
as it is. -/
def modifyAt {α : Type} (f : α → α) : Nat → List α → List α
  | _, [] => []
  | 0, x :: xs => f x :: xs
  | n + 1, x :: xs => x :: modifyAt f n xs

/-- The cell at address `i`, if there is one. -/
def cellAt {α : Type} : Nat → List α → Option α
  | _, [] => none
  | 0, x :: _ => some x
  | n + 1, _ :: xs => cellAt n xs

/-! ## Collaborators of `Run` -/

/-- The library constructor `newrelic_platform_go.NewNewrelicPlugin(version,
licenseKey, pollInterval)`: allocates a plugin with no component. -/
def NewNewrelicPlugin (version licenseKey : String) (pollInterval : Int) (env : Env) :
    Nat × Env :=
  (env.plugins.length,
   { env with plugins := env.plugins ++ [⟨version, licenseKey, pollInterval, false, []⟩] })

/-- The library constructor `newrelic_platform_go.NewPluginComponent(name,
guid)`: allocates a component with no metric. -/
def NewPluginComponent (name guid : String) (env : Env) : Nat × Env :=
  (env.components.length, { env with components := env.components ++ [⟨name, guid, []⟩] })

/-- The library method `plugin.AddComponent(component)`. -/
def AddComponent (plugin component : Nat) (env : Env) : Env :=
  { env with plugins :=
      modifyAt (fun p => { p with components := p.components ++ [component] }) plugin env.plugins }

/-- Attach one metric family to the component at address `component`. -/
def attach (component : Nat) (g : MetricGroup) (env : Env) : Env :=
  { env with components :=
      modifyAt (fun c => { c with metrics := c.metrics ++ [g] }) component env.components }

/-- Modelled from the spec: `addRuntimeMericsToComponent` is called by `Run`
but defined outside agent.go; per the spec
(4.5, "internally tracked runtime metrics such as uptime") it registers the
runtime metrics with the component. -/
def addRuntimeMericsToComponent (component : Nat) (env : Env) : Env :=
  attach component .runtime env

/-- Modelled from the spec: `addGCMericsToComponent` is defined outside
agent.go; per the spec (4.3) it registers the GC-derived metrics, fed
by a poller with the given interval. -/
def addGCMericsToComponent (component : Nat) (pollInterval : Int) (env : Env) : Env :=
  attach component (.gc pollInterval) env

/-- Modelled from the spec: `addMemoryMericsToComponent` is defined outside
agent.go; per the spec (4.3) it registers the memory-allocator
metrics, fed by a poller with the given interval. -/
def addMemoryMericsToComponent (component : Nat) (pollInterval : Int) (env : Env) : Env :=
  attach component (.memory pollInterval) env

/-- Modelled from the spec: `addHttpMericsToComponent` is defined outside
agent.go; per the spec (4.4, 4.6) it registers the metrics derived
from the shared HTTP timer it is given. -/
def addHttpMericsToComponent (component : Nat) (timer : Timer) (env : Env) : Env :=
  attach component (.http timer) env

/-- The library constructor `metrics.NewTimer()`: a fresh timer object. -/
def NewTimer (env : Env) : Timer × Env :=
  (some env.timers, { env with timers := env.timers + 1 })

/-- The assignment `plugin.Verbose = v`. -/
def setPluginVerbose (plugin : Nat) (v : Bool) (env : Env) : Env :=
  { env with plugins := modifyAt (fun p => { p with Verbose := v }) plugin env.plugins }

/-- The statement `go plugin.Run()`: the reporting task of the plugin at
address `plugin` is started in the background.  `startedWith` keeps, for each
started task in order, the plugin as it is at the moment the task is
started. -/
def goPluginRun (plugin : Nat) (env : Env) : Env :=
  { env with
      tasks := env.tasks ++ [plugin]
      startedWith := env.startedWith ++ [cellAt plugin env.plugins] }

/-- The call `log.Println(msg)`: one line carrying `msg`. -/
def logPrintln (msg : String) (env : Env) : Env :=
  { env with log := env.log ++ [msg] }

/-- The call `fmt.Sprintf(pre + "%d" + post, n)`. -/
def sprintfInt (pre : String) (n : Int) (post : String) : String :=
  pre ++ toString n ++ post

/-! ## The Agent's methods -/

/-- `NewAgent` (agent.go, lines 43-56).  Fields absent from the composite
literal take Go's zero value. -/
def NewAgent : Agent :=
  { NewrelicName := AGENT_NAME
    NewrelicLicense := ""
    NewrelicPollInterval := NEWRELIC_POLL_INTERVAL
    Verbose := false
    CollectGcStat := true
    CollectMemoryStat := true
    CollectHttpStat := false
    GCPollInterval := GC_POLL_INTERVAL_IN_SECONDS
    MemoryAllocatorPollInterval := MEMORY_ALLOCATOR_POLL_INTERVAL_IN_SECONDS
    AgentGUID := AGENT_GUID
    AgentVersion := AGENT_VERSION
    plugin := none
    HttpTimer := none }

/-- `Agent.Debug` (agent.go, lines 103-107). -/
def Debug (agent : Agent) (msg : String) (env : Env) : Agent × Env :=
  if agent.Verbose then (agent, logPrintln msg env) else (agent, env)

/-- The error value built by `errors.New` in `Run`. -/
def licenseError : String := "Please, pass a valid newrelic license key."

/-- `Agent.Run` (agent.go, lines 72-101).  The first component of the result
is the returned `error` (`none` is nil). -/
def Run (agent : Agent) (env : Env) : Option String × Agent × Env :=
  if agent.NewrelicLicense == "" then
    (some licenseError, agent, env)
  else
    let (plugin, env) :=
      NewNewrelicPlugin agent.AgentVersion agent.NewrelicLicense agent.NewrelicPollInterval env
    let agent := { agent with plugin := some plugin }
    let (component, env) := NewPluginComponent agent.NewrelicName agent.AgentGUID env
    let env := AddComponent plugin component env
    let env := addRuntimeMericsToComponent component env
    let (agent, env) :=
      if agent.CollectGcStat then
        let env := addGCMericsToComponent component agent.GCPollInterval env
        Debug agent
          (sprintfInt "Init GC metrics collection. Poll interval " agent.GCPollInterval " seconds.")
          env
      else (agent, env)
    let (agent, env) :=
      if agent.CollectMemoryStat then
        let env := addMemoryMericsToComponent component agent.MemoryAllocatorPollInterval env
        Debug agent
          (sprintfInt "Init memory allocator metrics collection. Poll interval "
            agent.MemoryAllocatorPollInterval " seconds.")
          env
      else (agent, env)
    let (agent, env) :=
      if agent.CollectHttpStat then
        let (timer, env) := NewTimer env
        let agent := { agent with HttpTimer := timer }
        let env := addHttpMericsToComponent component agent.HttpTimer env
        Debug agent "Init HTTP metrics collection." env
      else (agent, env)
    let env := setPluginVerbose plugin agent.Verbose env
    let env := goPluginRun plugin env
    (none, agent, env)

/-! ## HTTP wrapping -/

/-- What can be observed of serving one request: an application handler ran on
it, or a proxy folded the request's latency into the timer it holds. -/
inductive Event where
  | handled (handler : Nat) (req : Nat)
  | observed (timer : Timer)
  deriving DecidableEq, Repr

/-- Values of the interface type `http.Handler`: a handler of the application,
or the proxy object returned by `WrapHttpHandler`. -/
inductive Handler where
  | user (id : Nat)
  | proxy (originalHandler : Handler) (timer : Timer)
  deriving DecidableEq, Repr

/-- Values of the function type `THttpHandlerFunc`: a function of the
application, or the function literal of `WrapHttpHandlerFunc`, which captures
the receiver (the pointer, not a copy of the Agent) and `h`. -/
inductive THttpHandlerFunc where
  | user (id : Nat)
  | closure (h : THttpHandlerFunc)
  deriving DecidableEq, Repr

/-- Modelled from the spec: the proxy struct `THttpHandler` is declared outside
agent.go; agent.go shows that it has a `timer` field, and per the spec (4.4)
it wraps the original handler or function. -/
structure THttpHandler (H : Type) where
  original : H
  timer : Timer

/-- Modelled from the spec: `NewHttpHandler` is defined outside agent.go; it
builds the proxy around `h`, its timer not yet set. -/
def NewHttpHandler (h : Handler) : THttpHandler Handler := ⟨h, none⟩

/-- Modelled from the spec: `NewHttpHandlerFunc` is defined outside agent.go;
it builds the proxy around the function `h`, its timer not yet set. -/
def NewHttpHandlerFunc (h : THttpHandlerFunc) : THttpHandler THttpHandlerFunc := ⟨h, none⟩

/-- Modelled from the spec: the proxy's `ServeHTTP` is defined outside
agent.go; per the spec (4.4) the request goes through to the original
handler, whose run is `original`, and the latency is then observed into the
timer held in the proxy's `timer` field; per the spec (4.6) a wrapper records
data only once the timer exists, so a proxy whose timer is nil records
nothing. -/
def THttpHandler.ServeHTTP {H : Type} (proxy : THttpHandler H) (original : List Event) :
    List Event :=
  match proxy.timer with
  | none => original
  | some t => original ++ [.observed (some t)]

/-- The proxy object seen as the `http.Handler` that `WrapHttpHandler` returns. -/
def THttpHandler.toHandler (proxy : THttpHandler Handler) : Handler :=
  .proxy proxy.original proxy.timer

/-- `Agent.WrapHttpHandler` (agent.go, lines 66-70). -/
def WrapHttpHandler (agent : Agent) (h : Handler) : Handler × Agent :=
  let proxy := NewHttpHandler h
  let proxy := { proxy with timer := agent.HttpTimer }
  (proxy.toHandler, agent)

/-- `Agent.WrapHttpHandlerFunc` (agent.go, lines 58-64): returns the function
literal; its body is the `closure` case of `THttpHandlerFunc.call`. -/
def WrapHttpHandlerFunc (agent : Agent) (h : THttpHandlerFunc) : THttpHandlerFunc × Agent :=
  (.closure h, agent)

/-- Serving request `req` with a handler object. -/
def Handler.ServeHTTP : Handler → Nat → List Event
  | .user id, req => [.handled id req]
  | .proxy h timer, req => THttpHandler.ServeHTTP ⟨h, timer⟩ (h.ServeHTTP req)

/-- Calling a handler function on request `req`; `agent` is the Agent as it is
at the time of the call.  The `closure` case is the body of the function
literal in `WrapHttpHandlerFunc` (agent.go, lines 60-62). -/
def THttpHandlerFunc.call : THttpHandlerFunc → Agent → Nat → List Event
  | .user id, _, req => [.handled id req]
  | .closure h, agent, req =>
    let proxy := NewHttpHandlerFunc h
    let proxy := { proxy with timer := agent.HttpTimer }
    proxy.ServeHTTP (h.call agent req)

/-- The timers into which a latency was observed, in order. -/
def timersUsed : List Event → List Timer
  | [] => []
  | .observed t :: rest => t :: timersUsed rest
  | .handled _ _ :: rest => timersUsed rest

/-! ## What a successful `Run` leaves behind, in closed form -/

/-- The metric families a successful `Run` attaches, in order; `timer` is the
timer it creates when HTTP statistics are on. -/
def attachedMetrics (agent : Agent) (timer : Timer) : List MetricGroup :=
  [.runtime]
    ++ (if agent.CollectGcStat then [.gc agent.GCPollInterval] else [])
    ++ (if agent.CollectMemoryStat then [.memory agent.MemoryAllocatorPollInterval] else [])
    ++ (if agent.CollectHttpStat then [.http timer] else [])

/-- The lines a successful `Run` logs. -/
def runLog (agent : Agent) : List String :=
  if agent.Verbose then
    (if agent.CollectGcStat then
        [sprintfInt "Init GC metrics collection. Poll interval " agent.GCPollInterval " seconds."]
      else [])
      ++ (if agent.CollectMemoryStat then
            [sprintfInt "Init memory allocator metrics collection. Poll interval "
              agent.MemoryAllocatorPollInterval " seconds."]
          else [])
      ++ (if agent.CollectHttpStat then ["Init HTTP metrics collection."] else [])
  else []

/-! ## Sample configurations -/

/-- A freshly constructed Agent whose caller has set a license key. -/
def licensedAgent : Agent := { NewAgent with NewrelicLicense := "key" }

/-- The end-to-end scenario of the specification: GC statistics on (interval
1), memory statistics off, HTTP statistics on, reporting interval 2. -/
def scenarioAgent : Agent :=
  { NewAgent with
      NewrelicLicense := "key"
      NewrelicPollInterval := 2
      CollectGcStat := true
      GCPollInterval := 1
      CollectMemoryStat := false
      CollectHttpStat := true }

/-- A process in which an earlier Agent has already run: one plugin with its
component, one timer, one reporting task. -/
def busyEnv : Env :=
  { plugins := [⟨"0.0.4", "old", 60, false, [0]⟩]
    components := [⟨"Go daemon", "com.github.yvasiyarov.GoRelic", [.runtime]⟩]
    timers := 1
    log := ["started"]
    tasks := [0]
    startedWith := [some ⟨"0.0.4", "old", 60, false, [0]⟩] }

/-- An Agent that has run with HTTP statistics on (its HttpTimer is timer 0,
its plugin is cell 0) and whose caller has then switched HTTP statistics
off. -/
def switchedOffAgent : Agent :=
  { NewAgent with
      NewrelicLicense := "key"
      CollectHttpStat := false
      plugin := some 0
      HttpTimer := some 0 }

/-! ## Lemmas -/

theorem modifyAt_length_append {α : Type} (f : α → α) (l : List α) (x : α) :
    modifyAt f l.length (l ++ [x]) = l ++ [f x] := by
  induction l with
  | nil => rfl
  | cons y ys ih => simp [modifyAt, ih]

theorem cellAt_length_append {α : Type} (l : List α) (x : α) :
    cellAt l.length (l ++ [x]) = some x := by
  induction l with
  | nil => rfl
  | cons y ys ih => simp [cellAt, ih]

theorem Run_empty_license (a : Agent) (e : Env) (h : a.NewrelicLicense = "") :
    Run a e = (some licenseError, a, e) := by
  simp [Run, h]

theorem Run_ok (a : Agent) (e : Env) (h : a.NewrelicLicense ≠ "") :
    Run a e =
      (none,
       { a with
          plugin := some e.plugins.length
          HttpTimer := if a.CollectHttpStat then some e.timers else a.HttpTimer },
       { plugins := e.plugins ++
           [⟨a.AgentVersion, a.NewrelicLicense, a.NewrelicPollInterval, a.Verbose,
             [e.components.length]⟩]
         components := e.components ++
           [⟨a.NewrelicName, a.AgentGUID, attachedMetrics a (some e.timers)⟩]
         timers := if a.CollectHttpStat then e.timers + 1 else e.timers
         log := e.log ++ runLog a
         tasks := e.tasks ++ [e.plugins.length]
         startedWith := e.startedWith ++
           [some ⟨a.AgentVersion, a.NewrelicLicense, a.NewrelicPollInterval, a.Verbose,
             [e.components.length]⟩] }) := by
  obtain ⟨n, l, p, v, gc, mem, http, gi, mi, g, ver, pl, t⟩ := a
  simp only at h
  cases v <;> cases gc <;> cases mem <;> cases http <;>
    simp [Run, h, NewNewrelicPlugin, NewPluginComponent, AddComponent,
      addRuntimeMericsToComponent, addGCMericsToComponent, addMemoryMericsToComponent,
      addHttpMericsToComponent, attach, NewTimer, setPluginVerbose, goPluginRun, Debug,
      logPrintln, attachedMetrics, runLog, modifyAt_length_append, cellAt_length_append]

theorem Run_ok_err (a : Agent) (e : Env) (h : a.NewrelicLicense ≠ "") :
    (Run a e).1 = none := by
  rw [Run_ok a e h]

theorem Run_ok_agent (a : Agent) (e : Env) (h : a.NewrelicLicense ≠ "") :
    (Run a e).2.1 =
      { a with
          plugin := some e.plugins.length
          HttpTimer := if a.CollectHttpStat then some e.timers else a.HttpTimer } := by
  rw [Run_ok a e h]

theorem Run_ok_HttpTimer (a : Agent) (e : Env) (h : a.NewrelicLicense ≠ "") :
    (Run a e).2.1.HttpTimer = if a.CollectHttpStat then some e.timers else a.HttpTimer := by
  rw [Run_ok a e h]

theorem Run_ok_plugins (a : Agent) (e : Env) (h : a.NewrelicLicense ≠ "") :
    (Run a e).2.2.plugins = e.plugins ++
      [⟨a.AgentVersion, a.NewrelicLicense, a.NewrelicPollInterval, a.Verbose,
        [e.components.length]⟩] := by
  rw [Run_ok a e h]

theorem Run_ok_components (a : Agent) (e : Env) (h : a.NewrelicLicense ≠ "") :
    (Run a e).2.2.components = e.components ++
      [⟨a.NewrelicName, a.AgentGUID, attachedMetrics a (some e.timers)⟩] := by
  rw [Run_ok a e h]

theorem Run_ok_timers (a : Agent) (e : Env) (h : a.NewrelicLicense ≠ "") :
    (Run a e).2.2.timers = if a.CollectHttpStat then e.timers + 1 else e.timers := by
  rw [Run_ok a e h]

theorem Run_ok_log (a : Agent) (e : Env) (h : a.NewrelicLicense ≠ "") :
    (Run a e).2.2.log = e.log ++ runLog a := by
  rw [Run_ok a e h]

theorem Run_ok_tasks (a : Agent) (e : Env) (h : a.NewrelicLicense ≠ "") :
    (Run a e).2.2.tasks = e.tasks ++ [e.plugins.length] := by
  rw [Run_ok a e h]

theorem Run_ok_startedWith (a : Agent) (e : Env) (h : a.NewrelicLicense ≠ "") :
    (Run a e).2.2.startedWith = e.startedWith ++
      [some ⟨a.AgentVersion, a.NewrelicLicense, a.NewrelicPollInterval, a.Verbose,
        [e.components.length]⟩] := by
  rw [Run_ok a e h]

theorem gc_mem_attachedMetrics (a : Agent) (t : Timer) (i : Int) :
    MetricGroup.gc i ∈ attachedMetrics a t ↔ (a.CollectGcStat = true ∧ i = a.GCPollInterval) := by
  unfold attachedMetrics
  cases a.CollectGcStat <;> cases a.CollectMemoryStat <;> cases a.CollectHttpStat <;> simp

theorem memory_mem_attachedMetrics (a : Agent) (t : Timer) (i : Int) :
    MetricGroup.memory i ∈ attachedMetrics a t ↔
      (a.CollectMemoryStat = true ∧ i = a.MemoryAllocatorPollInterval) := by
  unfold attachedMetrics
  cases a.CollectGcStat <;> cases a.CollectMemoryStat <;> cases a.CollectHttpStat <;> simp

theorem http_mem_attachedMetrics (a : Agent) (t s : Timer) :
    MetricGroup.http s ∈ attachedMetrics a t ↔ (a.CollectHttpStat = true ∧ s = t) := by
  unfold attachedMetrics
  cases a.CollectGcStat <;> cases a.CollectMemoryStat <;> cases a.CollectHttpStat <;> simp

theorem Run_agent (a : Agent) (e : Env) :
    (Run a e).2.1 =
      { a with plugin := (Run a e).2.1.plugin, HttpTimer := (Run a e).2.1.HttpTimer } := by
  by_cases h : a.NewrelicLicense = ""
  · rw [Run_empty_license a e h]
  · rw [Run_ok_agent a e h]

theorem Run_HttpTimer_changed (a : Agent) (e : Env)
    (h : (Run a e).2.1.HttpTimer ≠ a.HttpTimer) :
    a.NewrelicLicense ≠ "" ∧ a.CollectHttpStat = true := by
  by_cases hl : a.NewrelicLicense = ""
  · rw [Run_empty_license a e hl] at h
    exact absurd rfl h
  · refine ⟨hl, ?_⟩
    rw [Run_ok_HttpTimer a e hl] at h
    cases hc : a.CollectHttpStat
    · rw [hc] at h
      exact absurd rfl h
    · rfl

theorem proxy_ne_original (h : Handler) (t : Timer) : Handler.proxy h t ≠ h := by
  induction h generalizing t with
  | user id => intro c; cases c
  | proxy g s ih =>
    intro c
    injection c with c1 c2
    exact ih s c1

theorem closure_ne_original (h : THttpHandlerFunc) : THttpHandlerFunc.closure h ≠ h := by
  induction h with
  | user id => intro c; cases c
  | closure g ih =>
    intro c
    injection c with c1
    exact ih c1

/-! ## Run: the license check -/

/-- C1: when NewrelicLicense is the empty string, Run returns a non-nil error
(the license error) and starts nothing: the Agent, and so its plugin pointer
and its HttpTimer, is as before, and so is everything around it: no plugin or
component is allocated, no metric attached, no timer created, nothing logged,
no background task launched. -/
theorem C1_Run_empty_license_starts_nothing (a : Agent) (e : Env)
    (h : a.NewrelicLicense = "") :
    (Run a e).1 = some licenseError ∧
    (Run a e).2.1.plugin = a.plugin ∧
    (Run a e).2.1.HttpTimer = a.HttpTimer ∧
    (Run a e).2.1 = a ∧
    (Run a e).2.2.plugins = e.plugins ∧
    (Run a e).2.2.components = e.components ∧
    (Run a e).2.2.timers = e.timers ∧
    (Run a e).2.2.tasks = e.tasks ∧
    (Run a e).2.2 = e := by
  simp [Run_empty_license a e h]

/-- C1 at a concrete input: an Agent without license that already points at a
plugin and a timer, in a process where an earlier Agent runs. -/
theorem C1_witness :
    ({ NewAgent with plugin := some 0, HttpTimer := some 0 } : Agent).NewrelicLicense = "" ∧
    (Run { NewAgent with plugin := some 0, HttpTimer := some 0 } busyEnv).1
      = some "Please, pass a valid newrelic license key." ∧
    (Run { NewAgent with plugin := some 0, HttpTimer := some 0 } busyEnv).2.1.plugin = some 0 ∧
    (Run { NewAgent with plugin := some 0, HttpTimer := some 0 } busyEnv).2.1.HttpTimer = some 0 ∧
    (Run { NewAgent with plugin := some 0, HttpTimer := some 0 } busyEnv).2.2 = busyEnv :=
  have t := C1_Run_empty_license_starts_nothing
    { NewAgent with plugin := some 0, HttpTimer := some 0 } busyEnv rfl
  ⟨rfl, t.1, t.2.1, t.2.2.1, t.2.2.2.2.2.2.2.2⟩

/-- C2: when NewrelicLicense is not empty, Run returns nil, allocates exactly
one plugin, which holds exactly one component (the one component Run
allocates), and launches the reporting task of that plugin exactly once; and
for every Agent, Run returns an error if and only if the license is empty. -/
theorem C2_Run_builds_one_plugin_one_component (a : Agent) (e : Env)
    (h : a.NewrelicLicense ≠ "") :
    (Run a e).1 = none ∧
    (Run a e).2.1.plugin = some e.plugins.length ∧
    (∃ p, (Run a e).2.2.plugins = e.plugins ++ [p] ∧ p.components = [e.components.length]) ∧
    (∃ c, (Run a e).2.2.components = e.components ++ [c]) ∧
    (Run a e).2.2.tasks = e.tasks ++ [e.plugins.length] ∧
    (∀ (b : Agent) (env : Env), (Run b env).1 ≠ none ↔ b.NewrelicLicense = "") := by
  refine ⟨?_, ?_, ?_, ?_, ?_, ?_⟩
  · simp [Run_ok a e h]
  · simp [Run_ok a e h]
  · exact ⟨⟨a.AgentVersion, a.NewrelicLicense, a.NewrelicPollInterval, a.Verbose,
      [e.components.length]⟩, by simp [Run_ok a e h], rfl⟩
  · exact ⟨⟨a.NewrelicName, a.AgentGUID, attachedMetrics a (some e.timers)⟩,
      by simp [Run_ok a e h]⟩
  · simp [Run_ok a e h]
  · intro b env
    by_cases hb : b.NewrelicLicense = ""
    · simp [Run_empty_license b env hb, hb]
    · simp [Run_ok b env hb, hb]

/-- C2 at a concrete input: a licensed default Agent, in a process where an
earlier Agent runs: the new plugin is cell 1 and its task is the second. -/
theorem C2_witness :
    licensedAgent.NewrelicLicense ≠ "" ∧
    (Run licensedAgent busyEnv).1 = none ∧
    (Run licensedAgent busyEnv).2.1.plugin = some 1 ∧
    (Run licensedAgent busyEnv).2.2.tasks = [0, 1] :=
  have t := C2_Run_builds_one_plugin_one_component licensedAgent busyEnv (by decide)
  ⟨by decide, t.1, t.2.1, t.2.2.2.2.1⟩

/-! ## Run: what is attached -/

/-- C3: after a successful Run (license not empty) the one component that Run
allocated carries the GC metrics iff CollectGcStat, and then with interval
GCPollInterval; the memory-allocator metrics iff CollectMemoryStat, and then
with interval MemoryAllocatorPollInterval; the HTTP metrics iff
CollectHttpStat, and then over the timer that Run has just created and stored
in HttpTimer (without CollectHttpStat no timer is created and HttpTimer is
left alone).  With GC on, memory off and HTTP on the component carries the
runtime metrics, the GC metrics and the HTTP timer, and no memory-allocator
metrics. -/
theorem C3_Run_attaches_enabled_features (a : Agent) (e : Env)
    (h : a.NewrelicLicense ≠ "") :
    ∃ c, (Run a e).1 = none ∧ (Run a e).2.2.components = e.components ++ [c] ∧
      (∀ i, MetricGroup.gc i ∈ c.metrics ↔ (a.CollectGcStat = true ∧ i = a.GCPollInterval)) ∧
      (∀ i, MetricGroup.memory i ∈ c.metrics ↔
        (a.CollectMemoryStat = true ∧ i = a.MemoryAllocatorPollInterval)) ∧
      (∀ t, MetricGroup.http t ∈ c.metrics ↔
        (a.CollectHttpStat = true ∧ t = (Run a e).2.1.HttpTimer)) ∧
      (a.CollectHttpStat = true →
        (Run a e).2.1.HttpTimer = (NewTimer e).1 ∧ (Run a e).2.2.timers = e.timers + 1) ∧
      (a.CollectHttpStat = false →
        (Run a e).2.1.HttpTimer = a.HttpTimer ∧ (Run a e).2.2.timers = e.timers) ∧
      (a.CollectGcStat = true → a.CollectMemoryStat = false → a.CollectHttpStat = true →
        c.metrics = [.runtime, .gc a.GCPollInterval, .http (Run a e).2.1.HttpTimer]) := by
  refine ⟨⟨a.NewrelicName, a.AgentGUID, attachedMetrics a (some e.timers)⟩,
    Run_ok_err a e h, Run_ok_components a e h, ?_, ?_, ?_, ?_, ?_, ?_⟩
  · exact fun i => gc_mem_attachedMetrics a _ i
  · exact fun i => memory_mem_attachedMetrics a _ i
  · intro t
    rw [http_mem_attachedMetrics, Run_ok_HttpTimer a e h]
    constructor
    · rintro ⟨hc, ht⟩
      exact ⟨hc, by simp [hc, ht]⟩
    · rintro ⟨hc, ht⟩
      exact ⟨hc, by simpa [hc] using ht⟩
  · intro hc
    simp [Run_ok_HttpTimer a e h, Run_ok_timers a e h, hc, NewTimer]
  · intro hc
    simp [Run_ok_HttpTimer a e h, Run_ok_timers a e h, hc]
  · intro hg hm hc
    simp [Run_ok_HttpTimer a e h, attachedMetrics, hg, hm, hc]

/-- C3 at the end-to-end scenario (GC on with interval 1, memory off, HTTP on):
the component carries runtime, GC and HTTP metrics and no memory metrics. -/
theorem C3_witness :
    scenarioAgent.NewrelicLicense ≠ "" ∧
    (Run scenarioAgent Env.empty).1 = none ∧
    (Run scenarioAgent Env.empty).2.1.HttpTimer = some 0 ∧
    (Run scenarioAgent Env.empty).2.2.components =
      [⟨"Go daemon", "com.github.yvasiyarov.GoRelic", [.runtime, .gc 1, .http (some 0)]⟩] ∧
    ∀ i, MetricGroup.memory i ∉
      (⟨"Go daemon", "com.github.yvasiyarov.GoRelic", [.runtime, .gc 1, .http (some 0)]⟩ :
        PluginComponent).metrics := by
  obtain ⟨c, h1, h2, _, h4, _, h6, _, h8⟩ :=
    C3_Run_attaches_enabled_features scenarioAgent Env.empty (by decide)
  have hc : c = ⟨"Go daemon", "com.github.yvasiyarov.GoRelic",
      [.runtime, .gc 1, .http (some 0)]⟩ := by
    have h9 : (Run scenarioAgent Env.empty).2.2.components =
        [⟨"Go daemon", "com.github.yvasiyarov.GoRelic",
          [.runtime, .gc 1, .http (some 0)]⟩] := by decide
    rw [h9] at h2
    simpa [Env.empty] using h2.symm
  refine ⟨by decide, h1, (h6 rfl).1, ?_, ?_⟩
  · rw [h2, hc]; rfl
  · intro i hi
    rw [← hc] at hi
    exact absurd ((h4 i).1 hi).1 (by decide)

/-! ## NewAgent -/

/-- C4: NewAgent returns the documented defaults: reporting interval 60, GC
interval 10, memory-allocator interval 60, GC and memory statistics on, HTTP
statistics off, not verbose, name "Go daemon", the GoRelic GUID, version
"0.0.4", an empty license, and nil plugin and HttpTimer; so Run on a fresh,
unmodified Agent fails with the license error and changes nothing. -/
theorem C4_NewAgent_defaults :
    NewAgent.NewrelicPollInterval = 60 ∧
    NewAgent.GCPollInterval = 10 ∧
    NewAgent.MemoryAllocatorPollInterval = 60 ∧
    NewAgent.CollectGcStat = true ∧
    NewAgent.CollectMemoryStat = true ∧
    NewAgent.CollectHttpStat = false ∧
    NewAgent.Verbose = false ∧
    NewAgent.NewrelicName = "Go daemon" ∧
    NewAgent.AgentGUID = "com.github.yvasiyarov.GoRelic" ∧
    NewAgent.AgentVersion = "0.0.4" ∧
    NewAgent.NewrelicLicense = "" ∧
    NewAgent.plugin = none ∧
    NewAgent.HttpTimer = none ∧
    ∀ e : Env, Run NewAgent e = (some "Please, pass a valid newrelic license key.", NewAgent, e) :=
  ⟨rfl, rfl, rfl, rfl, rfl, rfl, rfl, rfl, rfl, rfl, rfl, rfl, rfl,
    fun e => Run_empty_license NewAgent e rfl⟩

/-! ## HTTP wrapping -/

/-- C5, as stated, fails: on a fresh Agent, whose CollectHttpStat is false,
WrapHttpHandler(h) is not h but a proxy around h, and WrapHttpHandlerFunc(h)
is not h but a new function around h.  Nor is the result a no-op in what it
does: on an Agent that has run with HTTP statistics on and has them switched
off since, the wrapped handler and the wrapped function still observe the
latency of a request into the Agent's timer, which h alone does not do. -/
theorem C5_counterexample :
    NewAgent.CollectHttpStat = false ∧
    (WrapHttpHandler NewAgent (.user 0)).1 = .proxy (.user 0) none ∧
    (WrapHttpHandler NewAgent (.user 0)).1 ≠ .user 0 ∧
    (WrapHttpHandlerFunc NewAgent (.user 0)).1 = .closure (.user 0) ∧
    (WrapHttpHandlerFunc NewAgent (.user 0)).1 ≠ .user 0 ∧
    switchedOffAgent.CollectHttpStat = false ∧
    (Handler.user 0).ServeHTTP 7 = [.handled 0 7] ∧
    (WrapHttpHandler switchedOffAgent (.user 0)).1.ServeHTTP 7
      = [.handled 0 7, .observed (some 0)] ∧
    (THttpHandlerFunc.user 0).call switchedOffAgent 7 = [.handled 0 7] ∧
    (WrapHttpHandlerFunc switchedOffAgent (.user 0)).1.call switchedOffAgent 7
      = [.handled 0 7, .observed (some 0)] := by
  decide

/-- C5, amended: wrapping does not consult CollectHttpStat.  For every Agent,
whatever CollectHttpStat is, and every handler h, WrapHttpHandler(h) returns a
new proxy object around h, never h itself, and WrapHttpHandlerFunc(h) returns
a new function around h, never h itself; what is returned is the same for
CollectHttpStat set and not set, and the Agent is left as it was. -/
theorem C5_wrapping_always_wraps (a : Agent) (h : Handler) (f : THttpHandlerFunc) :
    (∃ t, (WrapHttpHandler a h).1 = .proxy h t) ∧
    (WrapHttpHandler a h).1 ≠ h ∧
    (WrapHttpHandler a h).2 = a ∧
    (WrapHttpHandlerFunc a f).1 = .closure f ∧
    (WrapHttpHandlerFunc a f).1 ≠ f ∧
    (WrapHttpHandlerFunc a f).2 = a ∧
    (∀ b : Bool,
      (WrapHttpHandler { a with CollectHttpStat := b } h).1 = (WrapHttpHandler a h).1 ∧
      (WrapHttpHandlerFunc { a with CollectHttpStat := b } f).1 = (WrapHttpHandlerFunc a f).1) :=
  ⟨⟨a.HttpTimer, rfl⟩, proxy_ne_original h a.HttpTimer, rfl, rfl, closure_ne_original f, rfl,
    fun _ => ⟨rfl, rfl⟩⟩

/-- C6, evaluated where it fails: a fresh Agent with a license and
CollectHttpStat set, a handler wrapped by WrapHttpHandler before Run.  Run
succeeds and creates timer 0, which is agent.HttpTimer from then on; the
proxy made earlier still holds the nil timer that agent.HttpTimer was when it
was made, so serving a request with it observes nothing and does not use the
timer Run created, while a function wrapped by WrapHttpHandlerFunc at the
same moment observes into the timer Run created. -/
theorem C6_WrapHttpHandler_binds_timer_at_wrap_time :
    (Run (WrapHttpHandler { licensedAgent with CollectHttpStat := true } (.user 0)).2
      Env.empty).1 = none ∧
    (Run (WrapHttpHandler { licensedAgent with CollectHttpStat := true } (.user 0)).2
      Env.empty).2.1.HttpTimer = some 0 ∧
    (WrapHttpHandler { licensedAgent with CollectHttpStat := true } (.user 0)).1
      = .proxy (.user 0) none ∧
    (WrapHttpHandler { licensedAgent with CollectHttpStat := true } (.user 0)).1.ServeHTTP 7
      = [.handled 0 7] ∧
    timersUsed
        ((WrapHttpHandler { licensedAgent with CollectHttpStat := true } (.user 0)).1.ServeHTTP 7)
      ≠ [(Run (WrapHttpHandler { licensedAgent with CollectHttpStat := true } (.user 0)).2
          Env.empty).2.1.HttpTimer] ∧
    (WrapHttpHandlerFunc { licensedAgent with CollectHttpStat := true } (.user 0)).1.call
        (Run (WrapHttpHandlerFunc { licensedAgent with CollectHttpStat := true } (.user 0)).2
          Env.empty).2.1 7
      = [.handled 0 7, .observed (some 0)] := by
  decide

/-- C7: the function returned by WrapHttpHandlerFunc(h) reads agent.HttpTimer
at every invocation: called when the Agent is in state cur, it serves the
request through a proxy for h whose timer is cur.HttpTimer.  So when it was
made before Run and Run then succeeds with CollectHttpStat set, every later
request is served by a proxy for h whose timer is the one Run created.
WrapHttpHandlerFunc itself returns the same function whatever agent.HttpTimer
holds, and leaves the Agent as it was. -/
theorem C7_WrapHttpHandlerFunc_binds_timer_at_request_time (a : Agent) (e : Env)
    (h : THttpHandlerFunc) (hl : a.NewrelicLicense ≠ "") (hc : a.CollectHttpStat = true) :
    (Run (WrapHttpHandlerFunc a h).2 e).1 = none ∧
    (Run (WrapHttpHandlerFunc a h).2 e).2.1.HttpTimer = (NewTimer e).1 ∧
    (Run (WrapHttpHandlerFunc a h).2 e).2.2.timers = (NewTimer e).2.timers ∧
    (∀ req,
      (WrapHttpHandlerFunc a h).1.call (Run (WrapHttpHandlerFunc a h).2 e).2.1 req =
        THttpHandler.ServeHTTP ⟨h, (NewTimer e).1⟩
          (h.call (Run (WrapHttpHandlerFunc a h).2 e).2.1 req)) ∧
    (∀ (b cur : Agent) (g : THttpHandlerFunc) (req : Nat),
      (WrapHttpHandlerFunc b g).1.call cur req =
        THttpHandler.ServeHTTP ⟨g, cur.HttpTimer⟩ (g.call cur req)) ∧
    (∀ (b : Agent) (g : THttpHandlerFunc), (WrapHttpHandlerFunc b g).2 = b) ∧
    (∀ (b : Agent) (g : THttpHandlerFunc) (t : Timer),
      (WrapHttpHandlerFunc { b with HttpTimer := t } g).1 = (WrapHttpHandlerFunc b g).1) := by
  have ht : (Run a e).2.1.HttpTimer = some e.timers := by
    rw [Run_ok_HttpTimer a e hl]; simp [hc]
  refine ⟨Run_ok_err a e hl, ?_, ?_, ?_, fun _ _ _ _ => rfl, fun _ _ => rfl,
    fun _ _ _ => rfl⟩
  · simpa [WrapHttpHandlerFunc, NewTimer] using ht
  · simp [WrapHttpHandlerFunc, NewTimer, Run_ok_timers a e hl, hc]
  · intro req
    simp [WrapHttpHandlerFunc, THttpHandlerFunc.call, NewHttpHandlerFunc, NewTimer, ht]

/-- C7 at a concrete input: a function wrapped before Run observes, after Run,
into timer 1, the timer Run created. -/
theorem C7_witness :
    ({ licensedAgent with CollectHttpStat := true } : Agent).NewrelicLicense ≠ "" ∧
    ({ licensedAgent with CollectHttpStat := true } : Agent).CollectHttpStat = true ∧
    (Run (WrapHttpHandlerFunc { licensedAgent with CollectHttpStat := true } (.user 3)).2
      busyEnv).2.1.HttpTimer = some 1 ∧
    (WrapHttpHandlerFunc { licensedAgent with CollectHttpStat := true } (.user 3)).1.call
        (Run (WrapHttpHandlerFunc { licensedAgent with CollectHttpStat := true } (.user 3)).2
          busyEnv).2.1 7
      = [.handled 3 7, .observed (some 1)] :=
  have t := C7_WrapHttpHandlerFunc_binds_timer_at_request_time
    { licensedAgent with CollectHttpStat := true } busyEnv (.user 3) (by decide) rfl
  ⟨by decide, rfl, t.2.1, t.2.2.2.1 7⟩

/-! ## Debug -/

/-- C8: Debug(msg) adds exactly one line, msg, to the log when Verbose is set
and adds nothing when it is not; either way the Agent is as before and so is
everything except the log.  Debug hands nothing back to its caller, and what
Run returns and what it builds (the component with its metrics, the timer,
the HttpTimer, the plugin pointer, the launched task) is the same for Verbose
set and not set. -/
theorem C8_Debug_only_logs (a : Agent) (msg : String) (e : Env) :
    (Debug a msg e).1 = a ∧
    (a.Verbose = true → (Debug a msg e).2 = { e with log := e.log ++ [msg] }) ∧
    (a.Verbose = false → (Debug a msg e).2 = e) ∧
    (Run { a with Verbose := true } e).1 = (Run { a with Verbose := false } e).1 ∧
    (Run { a with Verbose := true } e).2.2.components
      = (Run { a with Verbose := false } e).2.2.components ∧
    (Run { a with Verbose := true } e).2.2.timers
      = (Run { a with Verbose := false } e).2.2.timers ∧
    (Run { a with Verbose := true } e).2.2.tasks
      = (Run { a with Verbose := false } e).2.2.tasks ∧
    (Run { a with Verbose := true } e).2.1.HttpTimer
      = (Run { a with Verbose := false } e).2.1.HttpTimer ∧
    (Run { a with Verbose := true } e).2.1.plugin
      = (Run { a with Verbose := false } e).2.1.plugin := by
  refine ⟨?_, ?_, ?_, ?_⟩
  · unfold Debug; split <;> rfl
  · intro hv; simp [Debug, hv, logPrintln]
  · intro hv; simp [Debug, hv]
  · by_cases hl : a.NewrelicLicense = ""
    · rw [Run_empty_license { a with Verbose := true } e hl,
        Run_empty_license { a with Verbose := false } e hl]
      simp
    · rw [Run_ok { a with Verbose := true } e hl, Run_ok { a with Verbose := false } e hl]
      simp [attachedMetrics]

/-- C8 at concrete inputs: one line with Verbose set, none without. -/
theorem C8_witness :
    ({ NewAgent with Verbose := true } : Agent).Verbose = true ∧
    (Debug { NewAgent with Verbose := true } "hello" busyEnv).2.log = ["started", "hello"] ∧
    NewAgent.Verbose = false ∧
    (Debug NewAgent "hello" busyEnv).2.log = ["started"] :=
  ⟨rfl,
    congrArg Env.log
      ((C8_Debug_only_logs { NewAgent with Verbose := true } "hello" busyEnv).2.1 rfl),
    rfl,
    congrArg Env.log ((C8_Debug_only_logs NewAgent "hello" busyEnv).2.2.1 rfl)⟩

/-! ## Run: configuration -/

/-- C9: a successful Run (license not empty) passes the configuration through
unaltered: the plugin it allocates is built from (AgentVersion,
NewrelicLicense, NewrelicPollInterval) and holds the one component it
allocates, which is identified by (NewrelicName, AgentGUID); and at the moment
the reporting task is started, the plugin the task is started on is that
plugin, already holding its component and with its Verbose flag equal to
agent.Verbose. -/
theorem C9_Run_passes_configuration_through (a : Agent) (e : Env)
    (h : a.NewrelicLicense ≠ "") :
    ∃ p c,
      (Run a e).2.1.plugin = some e.plugins.length ∧
      (Run a e).2.2.plugins = e.plugins ++ [p] ∧
      p.version = a.AgentVersion ∧
      p.licenseKey = a.NewrelicLicense ∧
      p.pollInterval = a.NewrelicPollInterval ∧
      p.components = [e.components.length] ∧
      (Run a e).2.2.components = e.components ++ [c] ∧
      c.name = a.NewrelicName ∧
      c.guid = a.AgentGUID ∧
      p.Verbose = a.Verbose ∧
      p.Verbose = (Run a e).2.1.Verbose ∧
      (Run a e).2.2.tasks = e.tasks ++ [e.plugins.length] ∧
      (Run a e).2.2.startedWith = e.startedWith ++ [some p] ∧
      (∃ q, (Run a e).2.2.startedWith = e.startedWith ++ [some q] ∧
        q.Verbose = a.Verbose ∧
        q.version = a.AgentVersion ∧
        q.licenseKey = a.NewrelicLicense ∧
        q.pollInterval = a.NewrelicPollInterval ∧
        q.components = [e.components.length]) :=
  ⟨⟨a.AgentVersion, a.NewrelicLicense, a.NewrelicPollInterval, a.Verbose, [e.components.length]⟩,
    ⟨a.NewrelicName, a.AgentGUID, attachedMetrics a (some e.timers)⟩,
    by rw [Run_ok_agent a e h], Run_ok_plugins a e h, rfl, rfl, rfl, rfl,
    Run_ok_components a e h, rfl, rfl, rfl, by rw [Run_ok_agent a e h],
    Run_ok_tasks a e h, Run_ok_startedWith a e h,
    ⟨_, Run_ok_startedWith a e h, rfl, rfl, rfl, rfl, rfl⟩⟩

/-- C9 at the end-to-end scenario with Verbose set, in a process where an
earlier Agent runs: the second task is started on a plugin whose Verbose flag
is already set. -/
theorem C9_witness :
    ({ scenarioAgent with Verbose := true } : Agent).NewrelicLicense ≠ "" ∧
    (Run { scenarioAgent with Verbose := true } busyEnv).2.1.plugin = some 1 ∧
    (Run { scenarioAgent with Verbose := true } busyEnv).2.2.tasks = [0, 1] ∧
    (Run { scenarioAgent with Verbose := true } busyEnv).2.2.startedWith =
      [some ⟨"0.0.4", "old", 60, false, [0]⟩, some ⟨"0.0.4", "key", 2, true, [1]⟩] := by
  obtain ⟨p, _, h1, _, h3, h4, h5, h6, _, _, _, h10, _, h12, h13, _⟩ :=
    C9_Run_passes_configuration_through { scenarioAgent with Verbose := true } busyEnv
      (by decide)
  refine ⟨by decide, h1, h12, ?_⟩
  have hp : p = ⟨"0.0.4", "key", 2, true, [1]⟩ := by
    cases p
    simp only at h3 h4 h5 h6 h10
    subst h3 h4 h5 h6 h10
    rfl
  rw [h13, hp]
  rfl

/-- C10: Run, successful or not, leaves every configuration field of the Agent
as it was (NewrelicName, NewrelicLicense, NewrelicPollInterval, Verbose,
CollectGcStat, CollectMemoryStat, CollectHttpStat, GCPollInterval,
MemoryAllocatorPollInterval, AgentGUID, AgentVersion); HttpTimer differs
afterwards only if the license is not empty and CollectHttpStat is set.  On
success the runtime metrics are attached first and unconditionally, followed
by the GC, memory-allocator and HTTP metrics, those that are enabled, in
that order. -/
theorem C10_Run_keeps_configuration (a : Agent) (e : Env) :
    (Run a e).2.1.NewrelicName = a.NewrelicName ∧
    (Run a e).2.1.NewrelicLicense = a.NewrelicLicense ∧
    (Run a e).2.1.NewrelicPollInterval = a.NewrelicPollInterval ∧
    (Run a e).2.1.Verbose = a.Verbose ∧
    (Run a e).2.1.CollectGcStat = a.CollectGcStat ∧
    (Run a e).2.1.CollectMemoryStat = a.CollectMemoryStat ∧
    (Run a e).2.1.CollectHttpStat = a.CollectHttpStat ∧
    (Run a e).2.1.GCPollInterval = a.GCPollInterval ∧
    (Run a e).2.1.MemoryAllocatorPollInterval = a.MemoryAllocatorPollInterval ∧
    (Run a e).2.1.AgentGUID = a.AgentGUID ∧
    (Run a e).2.1.AgentVersion = a.AgentVersion ∧
    ((Run a e).2.1.HttpTimer ≠ a.HttpTimer →
      a.NewrelicLicense ≠ "" ∧ a.CollectHttpStat = true) ∧
    (a.NewrelicLicense ≠ "" →
      ∃ c, (Run a e).2.2.components = e.components ++ [c] ∧
        c.metrics =
          [.runtime]
            ++ (if a.CollectGcStat then [.gc a.GCPollInterval] else [])
            ++ (if a.CollectMemoryStat then [.memory a.MemoryAllocatorPollInterval] else [])
            ++ (if a.CollectHttpStat then [.http (Run a e).2.1.HttpTimer] else [])) := by
  have hcfg := Run_agent a e
  refine ⟨by rw [hcfg], by rw [hcfg], by rw [hcfg], by rw [hcfg], by rw [hcfg], by rw [hcfg],
    by rw [hcfg], by rw [hcfg], by rw [hcfg], by rw [hcfg], by rw [hcfg],
    Run_HttpTimer_changed a e, ?_⟩
  intro hl
  refine ⟨_, Run_ok_components a e hl, ?_⟩
  rw [Run_ok_HttpTimer a e hl]
  cases hc : a.CollectHttpStat <;> simp [attachedMetrics, hc]

/-- C10 at the end-to-end scenario: HttpTimer changes, the license is set and
HTTP statistics are on; the GC interval is still 1. -/
theorem C10_witness :
    (Run scenarioAgent busyEnv).2.1.HttpTimer ≠ scenarioAgent.HttpTimer ∧
    scenarioAgent.NewrelicLicense ≠ "" ∧
    scenarioAgent.CollectHttpStat = true ∧
    (Run scenarioAgent busyEnv).2.1.GCPollInterval = 1 :=
  have t := C10_Run_keeps_configuration scenarioAgent busyEnv
  ⟨by decide, (t.2.2.2.2.2.2.2.2.2.2.2.1 (by decide)).1,
    (t.2.2.2.2.2.2.2.2.2.2.2.1 (by decide)).2, t.2.2.2.2.2.2.2.1⟩

end Gorelic
